import Mathlib

/-!
Verification of the checktrack repository: receipt rendering (Jinja template),
totals/change computation, serial-number allocation, and the invoice listing
route (pagination, search-parameter validation, cache invalidation keys).

Monetary amounts are fixed-point values with 2 decimal places (spec §3),
embedded as integer cents.
-/

namespace Checktrack

/-- Zero-padded two-digit rendering of a natural number below 100, as produced
by `strftime` padding and by the fractional part of a fixed-point amount. -/
def pad2 (n : Nat) : String :=
  if n < 10 then "0" ++ toString n else toString n

/-- Modelled from the spec: monetary values are fixed-point with 2 decimal
places (spec §3); the backend value types are not in the sources, so their
canonical string form is modelled here: integer part, a dot, and exactly two
fractional digits, with a leading minus sign for negative amounts. The
template prints monetary context values with no extra filter, so this is the
text that reaches the receipt. -/
def formatMoney (c : Int) : String :=
  if c < 0 then
    "-" ++ (toString (c.natAbs / 100) ++ ("." ++ pad2 (c.natAbs % 100)))
  else
    toString (c.natAbs / 100) ++ ("." ++ pad2 (c.natAbs % 100))

/-- A product line: title, quantity in stock units, unit price in cents
(spec §3: `title`, `stock`, `price`). -/
structure ProductLine where
  title : String
  stock : Nat
  price : Nat
  deriving Repr, DecidableEq

/-- A payment: short type label and amount in cents (spec §3). -/
structure Payment where
  type : String
  amount : Nat
  deriving Repr, DecidableEq

/-- The timestamp fields used by the template's
`strftime("%d.%m.%Y %H:%M")` call. -/
structure DateOfIssue where
  day : Nat
  month : Nat
  year : Nat
  hour : Nat
  minute : Nat
  deriving Repr, DecidableEq

/-- The invoice fields the receipt template reads: `serial_number`,
`total_amount` (cents), `date_of_issue`, and the optional linked `payment`. -/
structure Invoice where
  serial_number : Nat
  total_amount : Nat
  date_of_issue : DateOfIssue
  payment : Option Payment
  deriving Repr, DecidableEq

/-- Python `str.center`: pad `s` with spaces to `width`; CPython places
`marg / 2 + (marg &&& width &&& 1)` fill characters on the left. -/
def center (s : String) (width : Nat) : String :=
  if width ≤ s.length then s
  else
    let marg := width - s.length
    let left := marg / 2 + (marg &&& width &&& 1)
    String.mk (List.replicate left ' ') ++ s ++
      String.mk (List.replicate (marg - left) ' ')

/-- The template's date line: `strftime("%d.%m.%Y %H:%M")` — zero-padded
day and month, full year, 24-hour zero-padded time. -/
def formatDate (d : DateOfIssue) : String :=
  pad2 d.day ++ "." ++ pad2 d.month ++ "." ++ toString d.year ++ " " ++
    pad2 d.hour ++ ":" ++ pad2 d.minute

/-- Modelled from the spec: `TotalsCalculator.computeTotals` is not in the
sources; spec §4.2 sums `stock_i × price_i` over all lines at full precision.
On cent-denominated fixed-point prices each line product is an exact number
of cents, so the sum is exact. -/
def totalProductsAmount (ps : List ProductLine) : Nat :=
  (ps.map (fun p => p.stock * p.price)).sum

/-- Modelled from the spec: `TotalsCalculator.computeChange` is not in the
sources; spec §4.2 sets `rest = payment.amount − total_amount`, unclamped,
and signals `PaymentMismatch` as an advisory condition when `rest < 0`.
Returns the rest together with the mismatch signal. -/
def computeChange (total_amount : Nat) (paymentAmount : Nat) : Int × Bool :=
  let rest : Int := (paymentAmount : Int) - (total_amount : Int)
  (rest, decide (rest < 0))

/-- Modelled from the spec: the `rest` context value handed to the template is
not computed in the sources; spec §4.5 item 9 makes it the change, always
present and zero when no payment is linked. -/
def restOf (inv : Invoice) : Int :=
  match inv.payment with
  | some pay => (computeChange inv.total_amount pay.amount).1
  | none => 0

/-- The three receipt lines the template's `{% for %}` body emits for one
product: `stock x price = stock * price`, the title, and the sub-divider. -/
def productBlock (subDiv : String) (p : ProductLine) : List String :=
  [toString p.stock ++ " x " ++ formatMoney (p.price : Int) ++ " = " ++
      formatMoney ((p.stock * p.price : Nat) : Int),
    p.title,
    subDiv]

/-- The receipt template from the sources, line by line: shop name centered,
divider, `ЧЕК №` header, divider, the `{% for product in products %}` block,
divider, `СУМА:` totals line, the `{% if invoice.payment %}` conditional
payment line, `РЕШТА:` line, divider, the formatted date, and the closing
thank-you line. -/
def render (shopName : String) (width : Nat) (divider subDiv : String)
    (inv : Invoice) (products : List ProductLine) : List String :=
  [center shopName width, divider,
    "ЧЕК №" ++ toString inv.serial_number, divider]
  ++ ((products.map (productBlock subDiv)).foldr (· ++ ·) [])
  ++ [divider, "СУМА: " ++ formatMoney ((totalProductsAmount products : Nat) : Int)]
  ++ (match inv.payment with
      | some pay => [pay.type ++ ": " ++ formatMoney ((inv.total_amount : Nat) : Int)]
      | none => [])
  ++ ["РЕШТА: " ++ formatMoney (restOf inv), divider,
    formatDate inv.date_of_issue, "Дякуємо за покупку!"]

/-- The receipt as a single text: the rendered lines joined by newlines. -/
def renderText (shopName : String) (width : Nat) (divider subDiv : String)
    (inv : Invoice) (products : List ProductLine) : String :=
  String.intercalate "\n" (render shopName width divider subDiv inv products)

/-- The receipt line sequence as enumerated by spec §4.5, written from the
spec wording (items 1–12) to be compared against the template: centered shop
name; divider; serial-number header; divider; per product in list order a
`quantity x unit_price = line_total` line, the title, and a sub-divider;
divider; totals line; payment line present if and only if a payment is
linked; rest line always present; divider; formatted date; thank-you line. -/
def specReceiptLines (shopName : String) (width : Nat) (divider subDiv : String)
    (inv : Invoice) (products : List ProductLine) : List String :=
  [center shopName width] ++ [divider] ++
    ["ЧЕК №" ++ toString inv.serial_number] ++ [divider] ++
    (products.foldr
      (fun p tail =>
        (toString p.stock ++ " x " ++ formatMoney (p.price : Int) ++ " = " ++
            formatMoney ((p.stock * p.price : Nat) : Int)) ::
          p.title :: subDiv :: tail)
      []) ++
    [divider] ++
    ["СУМА: " ++ formatMoney ((totalProductsAmount products : Nat) : Int)] ++
    (if inv.payment.isSome then
      [(inv.payment.getD ⟨"", 0⟩).type ++ ": " ++
        formatMoney ((inv.total_amount : Nat) : Int)]
    else []) ++
    ["РЕШТА: " ++ formatMoney (restOf inv)] ++ [divider] ++
    [formatDate inv.date_of_issue] ++ ["Дякуємо за покупку!"]

/-! ## Listing route (`src/frontend/src/routes/_layout/invoices.tsx`) -/

/-- `PER_PAGE = 5`, the route's fixed page size. -/
def PER_PAGE : Nat := 5

/-- A raw value found in the URL search object: a JavaScript number, or
anything that is not a number. -/
inductive SearchVal where
  | num (n : Int)
  | other (s : String)
  deriving Repr, DecidableEq

/-- `invoiceSearchSchema`: `z.object({ page: z.number().catch(1) })` — a
numeric `page` value passes through unchanged; an absent or non-numeric value
is replaced by `1`. -/
def parsePage : Option SearchVal → Int
  | some (.num n) => n
  | some (.other _) => 1
  | none => 1

/-- `getInvoiceQueryOptions`: the request uses `skip: (page - 1) * PER_PAGE`. -/
def skipOf (page : Int) : Int :=
  (page - 1) * (PER_PAGE : Int)

/-- Modelled from the spec: the backend `readInvoices` handler is not in the
sources; spec §6 List returns the ordered invoice sequence windowed by
`skip`/`limit`, length ≤ limit. -/
def readInvoices (db : List Invoice) (skip limit : Nat) : List Invoice :=
  (db.drop skip).take limit

/-- `InvoiceTable`: `hasNextPage = !isPlaceholderData && invoices?.data.length
=== PER_PAGE`. -/
def hasNextPage (isPlaceholderData : Bool) (returnedCount : Nat) : Bool :=
  !isPlaceholderData && (returnedCount == PER_PAGE)

/-- `InvoiceTable`: `hasPreviousPage = page > 1`. -/
def hasPreviousPage (page : Int) : Bool :=
  decide (1 < page)

/-- A component of a tanstack-query key: a string literal or the `{ page }`
object. -/
inductive QKey where
  | s (v : String)
  | pageObj (n : Int)
  deriving Repr, DecidableEq, BEq

/-- `getInvoiceQueryOptions`: listing pages are cached under
`["invoices", { page }]`. -/
def listingKey (page : Int) : List QKey :=
  [.s "invoices", .pageObj page]

/-- `AddInvoice.onSettled`: `queryClient.invalidateQueries({ queryKey:
["invoices"] })`. -/
def addInvoiceInvalidationKey : List QKey :=
  [.s "invoices"]

/-- `EditInvoice.onSettled`: `queryClient.invalidateQueries({ queryKey:
["invocie"] })` (sic). -/
def editInvoiceInvalidationKey : List QKey :=
  [.s "invocie"]

/-- tanstack-query invalidation: a cache entry is invalidated when the filter
key is an initial segment of the entry's key. -/
def keyMatches : List QKey → List QKey → Bool
  | [], _ => true
  | _ :: _, [] => false
  | a :: as, b :: bs => a == b && keyMatches as bs

/-! ## Serial-number allocator and exact totals -/

/-- Modelled from the spec: the `SerialNumberAllocator` is not in the sources;
spec §4.1/§5 back it by a durable counter whose increments are serialized
(atomic compare-and-increment), so a concurrent execution is an arbitrary
interleaving of atomic steps. An operation is an `issue` call or any other
store operation — in particular an invoice deletion — which never touches the
counter (deletion does not reclaim serial numbers). -/
inductive AllocOp where
  | issue
  | deleteInvoice
  deriving Repr, DecidableEq

/-- Modelled from the spec: one atomic allocator step — `issue` returns the
counter value and durably increments it; deletion leaves the counter alone
and returns nothing. -/
def allocStep (counter : Nat) : AllocOp → Nat × Option Nat
  | .issue => (counter + 1, some counter)
  | .deleteInvoice => (counter, none)

/-- The serial numbers returned, in issuance order, by running a trace of
operations from a given counter state. -/
def issuedSerials (counter : Nat) : List AllocOp → List Nat
  | [] => []
  | op :: ops =>
    match allocStep counter op with
    | (next, some s) => s :: issuedSerials next ops
    | (next, none) => issuedSerials next ops

/-- The exact (full-precision) sum of `stock_i × price_i` over the product
lines, as a rational number of currency units (prices are cents). -/
def exactLineSum (ps : List ProductLine) : ℚ :=
  (ps.map (fun p => (p.stock : ℚ) * ((p.price : ℚ) / 100))).sum

/-- Round a currency amount to 2 decimal places with round-half-up, returning
cents: `⌊100x + 1/2⌋`. -/
def roundHalfUpCents (x : ℚ) : ℤ :=
  ⌊x * 100 + 1 / 2⌋

/-- A concrete invoice used to instantiate universally quantified results. -/
def sampleInvoice : Invoice :=
  ⟨42, 500, ⟨1, 2, 2024, 9, 5⟩, some ⟨"cash", 500⟩⟩

/-- A concrete product list (spec §8 example: Bread 2 × 1.50, Milk 1 × 2.00). -/
def sampleProducts : List ProductLine :=
  [⟨"Bread", 2, 150⟩, ⟨"Milk", 1, 200⟩]

/-- A concrete store of 12 invoices for the pagination example. -/
def sampleDb : List Invoice :=
  List.replicate 12 sampleInvoice

/-! ## Helper lemmas -/

lemma string_append_assoc (a b c : String) : a ++ b ++ c = a ++ (b ++ c) := by
  apply String.ext
  simp [String.data_append]

lemma pad2_two_digit_chars :
    ∀ m : Fin 100, (pad2 m.1).length = 2 ∧ (pad2 m.1).data.all Char.isDigit = true := by
  decide

lemma foldr_productBlock_eq (subDiv : String) (ps : List ProductLine) :
    (ps.map (productBlock subDiv)).foldr (· ++ ·) [] =
      ps.foldr
        (fun p tail =>
          (toString p.stock ++ " x " ++ formatMoney (p.price : Int) ++ " = " ++
              formatMoney ((p.stock * p.price : Nat) : Int)) ::
            p.title :: subDiv :: tail)
        [] := by
  induction ps with
  | nil => rfl
  | cons p ps ih => simp [productBlock, ih]

lemma exactLineSum_eq_total (ps : List ProductLine) :
    exactLineSum ps = (totalProductsAmount ps : ℚ) / 100 := by
  induction ps with
  | nil => simp [exactLineSum, totalProductsAmount]
  | cons p ps ih =>
    simp only [exactLineSum, totalProductsAmount, List.map_cons, List.sum_cons] at *
    rw [ih]
    push_cast
    ring

lemma issuedSerials_ge (ops : List AllocOp) :
    ∀ counter s, s ∈ issuedSerials counter ops → counter ≤ s := by
  induction ops with
  | nil => intro counter s h; simp [issuedSerials] at h
  | cons op ops ih =>
    intro counter s h
    cases op with
    | issue =>
      simp only [issuedSerials, allocStep, List.mem_cons] at h
      rcases h with h | h
      · omega
      · have := ih (counter + 1) s h; omega
    | deleteInvoice =>
      simp only [issuedSerials, allocStep] at h
      exact ih counter s h

lemma issuedSerials_sorted (ops : List AllocOp) :
    ∀ counter, (issuedSerials counter ops).Pairwise (· < ·) := by
  induction ops with
  | nil => intro counter; simp [issuedSerials]
  | cons op ops ih =>
    intro counter
    cases op with
    | issue =>
      simp only [issuedSerials, allocStep]
      refine List.Pairwise.cons ?_ (ih (counter + 1))
      intro s hs
      have := issuedSerials_ge ops (counter + 1) s hs
      omega
    | deleteInvoice =>
      simp only [issuedSerials, allocStep]
      exact ih counter

/-! ## Claims -/

/-- C1: for every invoice, product list, and optional payment, the rendered
receipt consists of exactly the lines enumerated by the spec, in that order:
centered shop name, divider, serial-number header, divider, per product a
`quantity x unit_price = line_total` line then the title then a sub-divider,
divider, totals line, a payment-type/total line present if and only if a
payment is linked, an always-present rest line, divider, the formatted date,
and the thank-you line. -/
theorem receipt_lines_match_spec :
    ∀ (shopName : String) (width : Nat) (divider subDiv : String)
      (inv : Invoice) (products : List ProductLine),
      render shopName width divider subDiv inv products =
        specReceiptLines shopName width divider subDiv inv products := by
  intro shopName width divider subDiv inv products
  unfold render specReceiptLines
  rw [foldr_productBlock_eq]
  cases hp : inv.payment with
  | none => simp [hp]
  | some pay => simp [hp]

/-- C2: every monetary value printed on the receipt (`render` prints unit
prices, line totals, the totals line, the payment line, and the rest line
exclusively through `formatMoney`) is rendered with a dot followed by exactly
two fractional digits. -/
theorem rendered_money_has_two_decimals :
    ∀ c : Int, ∃ intPart : String,
      formatMoney c = intPart ++ ("." ++ pad2 (c.natAbs % 100)) ∧
      (pad2 (c.natAbs % 100)).length = 2 ∧
      (pad2 (c.natAbs % 100)).data.all Char.isDigit = true := by
  intro c
  have hm : c.natAbs % 100 < 100 := Nat.mod_lt _ (by norm_num)
  have h2 := pad2_two_digit_chars ⟨c.natAbs % 100, hm⟩
  by_cases hc : c < 0
  · refine ⟨"-" ++ toString (c.natAbs / 100), ?_, h2.1, h2.2⟩
    simp only [formatMoney, if_pos hc]
    rw [string_append_assoc]
  · exact ⟨toString (c.natAbs / 100), by simp [formatMoney, hc], h2.1, h2.2⟩

/-- C3: `total_products_amount` equals the exact full-precision sum of
`stock_i × price_i`, rounded to 2 decimals once at the end with round-half-up,
and is invariant under permutation of the product lines. -/
theorem total_exact_and_order_independent :
    ∀ ps qs : List ProductLine, ps.Perm qs →
      ((totalProductsAmount ps : ℤ) = roundHalfUpCents (exactLineSum ps) ∧
        totalProductsAmount ps = totalProductsAmount qs) := by
  intro ps qs hperm
  constructor
  · rw [exactLineSum_eq_total, roundHalfUpCents]
    rw [div_mul_cancel₀ _ (by norm_num : (100 : ℚ) ≠ 0)]
    symm
    rw [Int.floor_eq_iff]
    constructor
    · push_cast; linarith
    · push_cast; linarith
  · exact List.Perm.sum_eq (hperm.map _)

/-- C3 witness: the order-independence and exact-rounding result evaluated at
the spec §8 example list and its reversal. -/
theorem total_exact_witness :
    (totalProductsAmount sampleProducts : ℤ) =
        roundHalfUpCents (exactLineSum sampleProducts) ∧
      totalProductsAmount sampleProducts =
        totalProductsAmount sampleProducts.reverse :=
  total_exact_and_order_independent sampleProducts sampleProducts.reverse
    (List.reverse_perm sampleProducts).symm

/-- C4 counterexample: the claim requires both `rest = payment.amount −
total_amount` and that total 80.00 with payment 60.00 yields −40.00; by the
formula that input yields −20.00 (−2000 cents), not −40.00, so the claim as
stated is false at this input. -/
theorem change_at_60_counterexample :
    (computeChange 8000 6000).1 = -2000 ∧
      (computeChange 8000 6000).1 ≠ -4000 ∧
      (computeChange 8000 6000).2 = true := by
  decide

/-- C4 (amended): `computeChange` returns exactly `payment.amount −
total_amount`, unclamped, and signals `PaymentMismatch` if and only if the
rest is negative; total 80.00 with payment 100.00 yields 20.00 with no
mismatch, and payment 60.00 yields −20.00 with `PaymentMismatch` signaled. -/
theorem compute_change_formula :
    (∀ t p : Nat,
      (computeChange t p).1 = (p : Int) - (t : Int) ∧
        ((computeChange t p).2 = true ↔ (computeChange t p).1 < 0)) ∧
      computeChange 8000 10000 = (2000, false) ∧
      computeChange 8000 6000 = (-2000, true) := by
  refine ⟨fun t p => ⟨rfl, ?_⟩, by decide, by decide⟩
  simp [computeChange]

/-- C5: for any trace of allocator operations — `issue` calls interleaved,
in any serialization of concurrent callers, with deletions — the issued
serial numbers are pairwise distinct, non-decreasing in issuance order, and
never reused (they are in fact strictly increasing, and deletions never move
the counter back). -/
theorem serials_distinct_and_monotone :
    ∀ (counter : Nat) (ops : List AllocOp),
      (issuedSerials counter ops).Pairwise (· ≠ ·) ∧
        (issuedSerials counter ops).Chain' (· ≤ ·) := by
  intro counter ops
  have h := issuedSerials_sorted ops counter
  exact ⟨h.imp Nat.ne_of_lt, (h.imp Nat.le_of_lt).chain'⟩

/-- C6: with settled (non-placeholder) data, the route reports `hasNextPage`
exactly when the returned item count equals `PER_PAGE`, reports
`hasPreviousPage` exactly when `page > 1`, and over any store of 12 invoices
page 1 returns 5 items with `hasNextPage` true while page 3 returns 2 items
with `hasNextPage` false. -/
theorem pagination_flags :
    (∀ returnedCount : Nat,
      hasNextPage false returnedCount = true ↔ returnedCount = PER_PAGE) ∧
      (∀ page : Int, hasPreviousPage page = true ↔ 1 < page) ∧
      (∀ db : List Invoice, db.length = 12 →
        ((readInvoices db (skipOf 1).toNat PER_PAGE).length = 5 ∧
          hasNextPage false (readInvoices db (skipOf 1).toNat PER_PAGE).length = true ∧
          (readInvoices db (skipOf 3).toNat PER_PAGE).length = 2 ∧
          hasNextPage false (readInvoices db (skipOf 3).toNat PER_PAGE).length = false)) := by
  refine ⟨fun returnedCount => ?_, fun page => ?_, fun db hdb => ?_⟩
  · simp [hasNextPage]
  · simp [hasPreviousPage]
  · have h1 : (readInvoices db (skipOf 1).toNat PER_PAGE).length = 5 := by
      simp [readInvoices, skipOf, PER_PAGE, hdb]
    have h3 : (readInvoices db (skipOf 3).toNat PER_PAGE).length = 2 := by
      simp [readInvoices, skipOf, PER_PAGE, hdb]
    refine ⟨h1, ?_, h3, ?_⟩
    · rw [h1]; rfl
    · rw [h3]; rfl

/-- C6 witness: the page-window facts evaluated on a concrete store of 12
invoices. -/
theorem pagination_flags_witness :
    (readInvoices sampleDb (skipOf 1).toNat PER_PAGE).length = 5 ∧
      hasNextPage false (readInvoices sampleDb (skipOf 1).toNat PER_PAGE).length = true ∧
      (readInvoices sampleDb (skipOf 3).toNat PER_PAGE).length = 2 ∧
      hasNextPage false (readInvoices sampleDb (skipOf 3).toNat PER_PAGE).length = false :=
  pagination_flags.2.2 sampleDb (by simp [sampleDb])

/-- C7 counterexample: the search schema accepts the numeric page value 0
(`z.number().catch(1)` passes any number through), and at page 0 the issued
skip is `(0 − 1) × 5 = −5`, a negative value, contradicting the claim that
the skip of every accepted page is a non-negative integer. -/
theorem skip_negative_at_page_zero :
    parsePage (some (.num 0)) = 0 ∧
      skipOf (parsePage (some (.num 0))) = -5 ∧
      skipOf (parsePage (some (.num 0))) < 0 := by
  decide

/-- C7 (amended): for every accepted page the issued request uses
`skip = (page − 1) × 5`, and this skip is non-negative exactly when
`page ≥ 1` (pages 0 and below — which the schema accepts — give a negative
skip). -/
theorem skip_formula :
    ∀ page : Int,
      skipOf page = (page - 1) * 5 ∧ (0 ≤ skipOf page ↔ 1 ≤ page) := by
  intro page
  refine ⟨rfl, ?_⟩
  simp only [skipOf, PER_PAGE]
  omega

/-- C8: the create dialog's settled mutation invalidates the key
`["invoices"]`, which is a prefix of — and therefore invalidates — every
cached listing page key `["invoices", { page }]`; but the edit dialog's
settled mutation invalidates `["invocie"]`, which matches no listing page
key, so after a successful update no cached listing page is invalidated. -/
theorem edit_invalidation_misses_listing_pages :
    (∀ page : Int, keyMatches addInvoiceInvalidationKey (listingKey page) = true) ∧
      (∀ page : Int, keyMatches editInvoiceInvalidationKey (listingKey page) = false) := by
  exact ⟨fun page => rfl, fun page => rfl⟩

/-- C9: rendering is deterministic — two render calls on equal invoice,
product list, payment, and layout inputs produce byte-identical receipt
text (String equality in Lean is equality of the underlying bytes). -/
theorem render_deterministic :
    ∀ (s₁ s₂ : String) (w₁ w₂ : Nat) (d₁ d₂ sd₁ sd₂ : String)
      (inv₁ inv₂ : Invoice) (ps₁ ps₂ : List ProductLine),
      s₁ = s₂ → w₁ = w₂ → d₁ = d₂ → sd₁ = sd₂ → inv₁ = inv₂ → ps₁ = ps₂ →
      renderText s₁ w₁ d₁ sd₁ inv₁ ps₁ = renderText s₂ w₂ d₂ sd₂ inv₂ ps₂ := by
  intro s₁ s₂ w₁ w₂ d₁ d₂ sd₁ sd₂ inv₁ inv₂ ps₁ ps₂ h1 h2 h3 h4 h5 h6
  rw [h1, h2, h3, h4, h5, h6]

/-- C9 witness: determinism evaluated at a concrete invoice and product
list. -/
theorem render_deterministic_witness :
    renderText "SHOP" 10 "==========" "-----" sampleInvoice sampleProducts =
      renderText "SHOP" 10 "==========" "-----" sampleInvoice sampleProducts :=
  render_deterministic "SHOP" "SHOP" 10 10 "==========" "==========" "-----" "-----"
    sampleInvoice sampleInvoice sampleProducts sampleProducts
    rfl rfl rfl rfl rfl rfl

/-- C10: the search schema substitutes 1 for an absent or non-numeric `page`
and passes every numeric value — including 0 and negative numbers — through
unchanged into the skip computation. -/
theorem page_validation_passthrough :
    (∀ n : Int, parsePage (some (.num n)) = n) ∧
      parsePage none = 1 ∧
      (∀ s : String, parsePage (some (.other s)) = 1) ∧
      parsePage (some (.num 0)) = 0 ∧
      parsePage (some (.num (-3))) = -3 ∧
      (∀ n : Int, skipOf (parsePage (some (.num n))) = skipOf n) := by
  exact ⟨fun n => rfl, rfl, fun s => rfl, rfl, rfl, fun n => rfl⟩

end Checktrack
